import Mathlib

/-!
Verification of the Growler request-dispatch core against its
natural-language specification.

The development shallowly embeds the two source files of the core:

* `growler/router.py` — the `Router` class: sinatra-style path
  compilation (`sinatra_path_to_regex`), per-verb registration
  (`_add_route` and the `get`/`post`/`put`/`delete`/`all` sugar),
  the per-entry skip decision (`should_skip_middleware`), the
  `subrouters` property and the `match_routes` dispatch surface.

* `growler/aio/http_protocol.py` — `GrowlerHTTPProtocol.handle_error`
  (synthesis of a wire-level HTTP error response) and
  `GrowlerHTTPProtocol.body_storage_pair` (the generator/future pair
  used to hand a request body from the push side to an awaitable
  consumer).

Parts of the repository that the spec covers but that are not present
in the source tree (the generic `MiddlewareChain` matching loop, the
`HTTPMethod` bitmask enumeration, the `HTTPError` taxonomy) are
modelled from the spec; each such definition says so in its doc
comment.

Conventions: Python strings are modelled as `List Char` at the
matching level and as `String` at API surfaces; compiled regular
expressions are modelled as token lists produced by the sinatra
compiler (the only regexes the claims exercise); the mutable router
is modelled by explicit state passing over its entry list.
-/

namespace Growler

/-- Word characters, as matched by the regex class backslash-w used in
the compiled named capture groups.  The Python source compiles with
re.UNICODE; the claims only exercise ASCII paths, for which
alphanumerics plus underscore is the exact semantics. -/
def isWordChar (c : Char) : Bool :=
  c.isAlphanum || c = '_'

/-- One segment of a compiled path pattern: either a literal run of
characters or a named capture group matching one-or-more word
characters (the Python source writes the group as a named pattern over
backslash-w-plus). -/
inductive PathSeg where
  | lit (s : List Char) : PathSeg
  | param (name : List Char) : PathSeg
deriving DecidableEq, Repr

/-- A compiled path pattern: the list of segments obtained by
splitting the path on a slash, joined back with slashes at matching
time.  This models the compiled regex object returned by
`Router.sinatra_path_to_regex`. -/
abbrev Regexp := List PathSeg

/-- The argument of `sinatra_path_to_regex`: either a plain path
string or an already-compiled pattern object. -/
inductive PathSpec where
  | str (s : String) : PathSpec
  | regex (r : Regexp) : PathSpec

/-- Python's `str.split(sep)` for a single-character separator:
`""` yields one empty piece, a leading separator yields a leading
empty piece, and so on. -/
def splitChars (sep : Char) : List Char → List (List Char)
  | [] => [[]]
  | c :: cs =>
    let r := splitChars sep cs
    if c = sep then [] :: r
    else
      match r with
      | h :: t => (c :: h) :: t
      | [] => [[c]]

/-- The per-segment step of `Router.sinatra_path_to_regex`: a segment
on which the class pattern colon-name matches (a prefix match — the
segment starts with a colon followed by a word character) is replaced
by a named capture group whose name is everything after the colon;
any other segment is left unchanged. -/
def compileSegment (seg : List Char) : PathSeg :=
  match seg with
  | ':' :: c :: cs => if isWordChar c then .param (c :: cs) else .lit seg
  | _ => .lit seg

/-- `Router.sinatra_path_to_regex`: return a pre-compiled pattern
untouched; otherwise split the path on slashes, compile each segment,
and rejoin (the rejoining with slashes is performed by `toks` below,
which is where the compiled pattern is interpreted). -/
def sinatra_path_to_regex : PathSpec → Regexp
  | .regex r => r
  | .str s => (splitChars '/' s.data).map compileSegment

/-- Matching tokens of a compiled pattern: the segments of the
pattern interleaved with the literal slashes that joined them. -/
inductive Tok where
  | tlit (s : List Char) : Tok
  | tparam (name : List Char) : Tok
deriving DecidableEq, Repr

/-- A pattern segment as a matching token. -/
def tokOf : PathSeg → Tok
  | .lit s => .tlit s
  | .param n => .tparam n

/-- The token sequence of a compiled pattern: its segments joined by
literal slash tokens, exactly as the source joins the per-segment
regex strings with a slash. -/
def toks : Regexp → List Tok
  | [] => []
  | [s] => [tokOf s]
  | s :: s' :: rest => tokOf s :: .tlit ['/'] :: toks (s' :: rest)

/-- Anchored regex matching for compiled sinatra patterns.  A literal
token consumes exactly its characters; a capture token consumes the
longest non-empty run of word characters (greedy; since in every
compiled pattern a capture token is followed by a literal slash or by
the end of the pattern, greedy matching without backtracking agrees
with the regex engine).  Returns the named captures and the
unconsumed remainder of the path, like a match object's groups and
the text after its end. -/
def matchToks : List Tok → List Char → Option (List (List Char × List Char) × List Char)
  | [], cs => some ([], cs)
  | .tlit l :: ts, cs =>
    if l.isPrefixOf cs then matchToks ts (cs.drop l.length) else none
  | .tparam n :: ts, cs =>
    let run := cs.takeWhile isWordChar
    if run.isEmpty then none
    else (matchToks ts (cs.drop run.length)).map (fun pr => ((n, run) :: pr.1, pr.2))

/-- Anchored match of a compiled pattern against a path, yielding the
captures and the residual path on success. -/
def regexMatch (r : Regexp) (path : List Char) :
    Option (List (List Char × List Char) × List Char) :=
  matchToks (toks r) path

-- Modelled from the spec: the `HTTPMethod` enumeration
-- (`growler/http/methods.py` is not in the source tree).  The spec
-- mandates a bitset over exactly the verbs GET, POST, PUT, DELETE,
-- with ALL the wildcard mask covering every method.
namespace HTTPMethod

/-- GET bit of the method bitmask. -/
def GET : Nat := 1

/-- POST bit of the method bitmask. -/
def POST : Nat := 2

/-- PUT bit of the method bitmask. -/
def PUT : Nat := 4

/-- DELETE bit of the method bitmask. -/
def DELETE : Nat := 8

/-- The wildcard mask: the union of every method bit, so that an ALL
mask matches every method. -/
def ALL : Nat := GET ||| POST ||| PUT ||| DELETE

end HTTPMethod

/-- A middleware handler: either a leaf callable (identified by a
tag, since the matcher never looks inside it) or a nested sub-router
(a `Router` instance carrying its own entry list).  This is the
tagged-variant rendering of the source's duck-typed handlers. -/
inductive Handler where
  | leaf (id : Nat) : Handler
  | router (mwList : List (Nat × Regexp × Handler)) : Handler

/-- Does the handler test positive for `isinstance(mw.func, Router)`,
as the `subrouters` property asks? -/
def Handler.isRouter : Handler → Bool
  | .router _ => true
  | .leaf _ => false

/-- One registration in a chain: (method mask, compiled pattern,
handler), the source's middleware record fields (mask, path, func). -/
abbrev Entry := Nat × Regexp × Handler

/-- The mask field of an entry. -/
def Entry.mask (e : Entry) : Nat := e.1

/-- The compiled pattern field of an entry. -/
def Entry.pattern (e : Entry) : Regexp := e.2.1

/-- The handler (`func`) field of an entry. -/
def Entry.func (e : Entry) : Handler := e.2.2

/-- A router is its ordered middleware list `mw_list`. -/
abbrev Router := List Entry

/-- `Router.should_skip_middleware` from `growler/router.py`: skip
when the request did not match, or when the rest of the path after
the match is non-empty (Python truthiness of the `rest` string).  The
`middleware` argument is accepted but never inspected. -/
def should_skip_middleware (_middleware : Handler) (matching : Bool)
    (rest : List Char) : Bool :=
  (!matching) || !rest.isEmpty

/-- Modelled from the spec: one iteration of the `MiddlewareChain`
matching generator (`growler/middleware_chain.py` is not in the
source tree).  Per spec section 4.1: an entry is considered when its
mask includes the method; its pattern is matched anchored at the
start of the path, producing the named captures and the unmatched
remainder (the residual); the per-entry decision `should_skip`
determines whether the entry is still yielded, and a yielded entry
contributes its handler, captures and residual.  The skip decision
dispatches to the router's own `should_skip_middleware` above. -/
def matchEntry (method : Nat) (path : List Char) (e : Entry) :
    Option (Handler × List (List Char × List Char) × List Char) :=
  if e.mask &&& method = 0 then none
  else
    let res := regexMatch e.pattern path
    let matched := res.isSome
    let caps := (res.map Prod.fst).getD []
    let rest := (res.map Prod.snd).getD []
    if should_skip_middleware e.func matched rest then none
    else some (e.func, caps, rest)

/-- Modelled from the spec: the chain's matching operation
(`MiddlewareChain.__call__`), yielding for each entry in registration
order the handler, captures and residual of every entry that the
per-entry decision does not skip. -/
def matchChain (r : Router) (method : Nat) (path : List Char) :
    List (Handler × List (List Char × List Char) × List Char) :=
  r.filterMap (matchEntry method path)

/-- Modelled from the spec: `MiddlewareChain.add` appends one entry
(mask, pattern, handler) to the chain, compiling the path exactly as
the router's registration sugar does (spec sections 4.1 and 4.2:
`register(mask, compile(path), handler)` appends an Entry and never
mutates existing entries). -/
def Router.add (r : Router) (mask : Nat) (path : PathSpec) (func : Handler) : Router :=
  r ++ [(mask, sinatra_path_to_regex path, func)]

/-- The value of a verb-registration call: either the router itself
(handler supplied, registered directly) or a decorator closure
(handler omitted). -/
inductive AddRouteResult where
  | router (r : Router) : AddRouteResult
  | decorator (d : Handler → Router × Handler) : AddRouteResult

/-- `Router._add_route`: with a middleware supplied, register it and
return the router; with the middleware omitted, return a decorator
which, applied to a function, registers that function and returns the
same function (the source's two-element tuple indexed at one). -/
def Router._add_route (r : Router) (method : Nat) (path : PathSpec)
    (middleware : Option Handler) : AddRouteResult :=
  match middleware with
  | some mw => .router (r.add method path mw)
  | none => .decorator (fun func => (r.add method path func, func))

/-- `Router.all`: matches all HTTP requests. -/
def Router.all (r : Router) (path : PathSpec) (middleware : Option Handler) :
    AddRouteResult :=
  Router._add_route r HTTPMethod.ALL path middleware

/-- `Router.get`: matches GET requests. -/
def Router.get (r : Router) (path : PathSpec) (middleware : Option Handler) :
    AddRouteResult :=
  Router._add_route r HTTPMethod.GET path middleware

/-- `Router.post`: matches POST requests. -/
def Router.post (r : Router) (path : PathSpec) (middleware : Option Handler) :
    AddRouteResult :=
  Router._add_route r HTTPMethod.POST path middleware

/-- `Router.put`: matches PUT requests. -/
def Router.put (r : Router) (path : PathSpec) (middleware : Option Handler) :
    AddRouteResult :=
  Router._add_route r HTTPMethod.PUT path middleware

/-- `Router.delete`: matches DELETE requests. -/
def Router.delete (r : Router) (path : PathSpec) (middleware : Option Handler) :
    AddRouteResult :=
  Router._add_route r HTTPMethod.DELETE path middleware

/-- `Router.subrouters`: the entries of the middleware list whose
handler is itself a `Router` instance, in list order (the source's
filter over `mw_list`). -/
def Router.subrouters (r : Router) : List Entry :=
  r.filter (fun mw => mw.func.isRouter)

/-- A request object as the router sees it: the dispatch surface
reads only the method and the path; the remaining payload is carried
untouched. -/
structure Request where
  method : Nat
  path : String
  body : String

/-- `Router.match_routes`: yields the routes matching the request by
invoking the chain's matching operation on the request's method and
path. -/
def Router.match_routes (r : Router) (req : Request) :
    List (Handler × List (List Char × List Char) × List Char) :=
  matchChain r req.method req.path.data

/-- The error delivered to `GrowlerHTTPProtocol.handle_error`.
Modelled from the spec's error-taxonomy interface: a protocol error
(`HTTPError`, whose class lives outside the source tree) carries a
numeric status code and a short message; any other exception only
contributes its string form. -/
inductive DispatchError where
  | httpError (code : Nat) (msg : String) : DispatchError
  | unclassified (s : String) : DispatchError

/-- `GrowlerHTTPProtocol.handle_error` from
`growler/aio/http_protocol.py`, as a pure function of the current
`Date` header value and the delivered error.  Returns the list of
transport writes performed (the source performs a single
`transport.write` of the encoded response) and whether a diagnostic
traceback was printed to stderr. -/
def handle_error (date : String) (error : DispatchError) : List String × Bool :=
  let classified :=
    match error with
    | .httpError c m => (c, m, "", false)
    | .unclassified s => (500, "Server Error", s, true)
  let err_code := classified.1
  let err_msg := classified.2.1
  let err_info := classified.2.2.1
  let traced := classified.2.2.2
  let err_str :=
    "<html><head></head><body><h1>HTTP Error : " ++ toString err_code ++ " "
      ++ err_msg ++ "</h1><p>" ++ err_info ++ "</p></body></html>\n"
  let response := String.intercalate ("\r\n")
    [ "HTTP/1.1 " ++ toString err_code ++ " " ++ err_msg,
      "Content-Type: text/html; charset=UTF-8",
      "Content-Length: " ++ toString err_str.utf8ByteSize,
      "Date: " ++ date,
      "",
      err_str ]
  ([response], traced)

/-- The status code `handle_error` selects: the protocol error's own
code, or 500 for anything unclassified. -/
def errCodeOf : DispatchError → Nat
  | .httpError c _ => c
  | .unclassified _ => 500

/-- The status message `handle_error` selects: the protocol error's
own message, or the generic server-error text. -/
def errMsgOf : DispatchError → String
  | .httpError _ m => m
  | .unclassified _ => "Server Error"

/-- The body detail `handle_error` selects: empty for a protocol
error, the string form of the error otherwise. -/
def errInfoOf : DispatchError → String
  | .httpError _ _ => ""
  | .unclassified s => s

/-- The HTML body of the synthesized error response, as the wire
output contract spells it out. -/
def errBody (code : Nat) (msg info : String) : String :=
  "<html><head></head><body><h1>HTTP Error : " ++ toString code ++ " "
    ++ msg ++ "</h1><p>" ++ info ++ "</p></body></html>\n"

/-- The resolution state of the body future: `none` while pending,
`some v` once `set_result(v)` ran, where `v` itself is an optional
payload because Python permits resolving with `None`. -/
abbrev Fut := Option (Option String)

/-- The suspension state of the `send_body` generator in
`GrowlerHTTPProtocol.body_storage_pair`:
`created` before the first advance, `waiting` suspended at the
`data = yield` expression, `delivered` suspended at the final bare
`yield` after resolving the future. -/
inductive GenState where
  | created : GenState
  | waiting : GenState
  | delivered : GenState
deriving DecidableEq, Repr

/-- How an advance of the generator can fail: sending a non-None
value into a not-yet-started generator (TypeError), resuming past the
final yield (StopIteration), or resolving an already-resolved future
(InvalidStateError). -/
inductive StepFailure where
  | typeError : StepFailure
  | stopIteration : StepFailure
  | invalidState : StepFailure
deriving DecidableEq, Repr

/-- One advance of the `send_body` generator (a `next` passes no
value, modelled as `none`; a `send(v)` passes `some v`), paired with
the future it closes over.  From `created` the generator runs to the
first yield; from `waiting` the received value becomes `data`, the
future is resolved with it and the generator suspends at the second
yield; from `delivered` the generator body ends, raising
StopIteration. -/
def genAdvance (st : GenState) (fut : Fut) (v : Option String) :
    Except StepFailure (GenState × Fut) :=
  match st with
  | .created =>
    match v with
    | none => .ok (.waiting, fut)
    | some _ => .error .typeError
  | .waiting =>
    match fut with
    | none => .ok (.delivered, some v)
    | some _ => .error .invalidState
  | .delivered => .error .stopIteration

/-- `GrowlerHTTPProtocol.body_storage_pair`: create an unresolved
future, instantiate the `send_body` generator, advance it once with
`next(sender)` inside the call, and return the (future, sender)
pair.  The internal advance cannot fail on a fresh generator; the
unreachable error arm returns the untouched pair. -/
def body_storage_pair : Fut × GenState :=
  let fut : Fut := none
  match genAdvance .created fut none with
  | .ok (st, f) => (f, st)
  | .error _ => (fut, .created)

/-!
## Theorems for the claims
-/

/-- Claim C1 (counterexample).  The claim asserts that an entry whose
handler is a sub-router is NOT skipped when its pattern matches a
prefix of the path leaving a non-empty residual, and that the
Router's skip decision excludes only non-matching entries or leaf
entries with a residual.  In fact `Router.should_skip_middleware`
never inspects the handler: for the sub-router mounted at /blog and
the path /blog/list the pattern does match with residual /list (third
conjunct), yet the skip decision returns true for the sub-router
entry (first conjunct) and the match yields nothing (second
conjunct). -/
theorem c1_subrouter_not_skipped_counterexample :
    should_skip_middleware
        (Handler.router
          [(HTTPMethod.GET, sinatra_path_to_regex (.str ("/list")), Handler.leaf 1)])
        true (("/list").data) = true
    ∧ matchChain
        [(HTTPMethod.ALL, sinatra_path_to_regex (.str ("/blog")),
          Handler.router
            [(HTTPMethod.GET, sinatra_path_to_regex (.str ("/list")), Handler.leaf 1)])]
        HTTPMethod.GET ("/blog/list").data = []
    ∧ regexMatch (sinatra_path_to_regex (.str ("/blog"))) ("/blog/list").data
        = some ([], ("/list").data) :=
  ⟨rfl, rfl, rfl⟩

/-- Claim C1 (amended).  During matching, an entry whose pattern
matches a prefix of the path leaving a non-empty residual is skipped
regardless of the kind of its handler: `Router.should_skip_middleware`
ignores the handler argument and returns true for every non-empty
residual, so a sub-router mounted at /blog is not yielded for the
path /blog/list. -/
theorem c1_subrouter_skipped_amended :
    (∀ (h : Handler) (m : Bool) (c : Char) (cs : List Char),
        should_skip_middleware h m (c :: cs) = true)
    ∧ matchChain
        [(HTTPMethod.ALL, sinatra_path_to_regex (.str ("/blog")),
          Handler.router
            [(HTTPMethod.GET, sinatra_path_to_regex (.str ("/list")), Handler.leaf 1)])]
        HTTPMethod.GET ("/blog/list").data = [] := by
  refine ⟨?_, rfl⟩
  intro h m c cs
  simp [should_skip_middleware]

set_option maxHeartbeats 1000000 in
set_option maxRecDepth 8000 in
/-- Claim C2.  For every error delivered to the dispatcher's error
handler: a protocol error carrying a status code and message produces
a response using that code and message verbatim in the status line
with an empty body detail and no diagnostic trace; any other error
produces a status-500 response with the generic message, the string
form of the error as the body detail, and a diagnostic trace on the
operator-visible error stream; a 403 Forbidden error produces a
transport write starting with the literal status line
HTTP/1.1 403 Forbidden. -/
theorem c2_error_classification :
    ∀ (date : String) (c : Nat) (m s : String),
      handle_error date (.httpError c m) =
        ([ ("HTTP/1.1 " ++ toString c ++ " " ++ m) ++ "\r\n"
            ++ "Content-Type: text/html; charset=UTF-8" ++ "\r\n"
            ++ ("Content-Length: " ++ toString (errBody c m ("")).utf8ByteSize) ++ "\r\n"
            ++ ("Date: " ++ date) ++ "\r\n"
            ++ "" ++ "\r\n"
            ++ errBody c m ("") ], false)
      ∧ handle_error date (.unclassified s) =
        ([ ("HTTP/1.1 " ++ toString (500 : Nat) ++ " " ++ "Server Error") ++ "\r\n"
            ++ "Content-Type: text/html; charset=UTF-8" ++ "\r\n"
            ++ ("Content-Length: "
                ++ toString (errBody 500 ("Server Error") s).utf8ByteSize) ++ "\r\n"
            ++ ("Date: " ++ date) ++ "\r\n"
            ++ "" ++ "\r\n"
            ++ errBody 500 ("Server Error") s ], true)
      ∧ (handle_error ("Thu, 01 Jan 1970 00:00:00 GMT") (.httpError 403 ("Forbidden"))).1
        = ["HTTP/1.1 403 Forbidden\r\nContent-Type: text/html; charset=UTF-8\r\nContent-Length: 82\r\nDate: Thu, 01 Jan 1970 00:00:00 GMT\r\n\r\n<html><head></head><body><h1>HTTP Error : 403 Forbidden</h1><p></p></body></html>\n"] :=
  fun _ _ _ _ => ⟨rfl, rfl, rfl⟩

/-- Claim C3 (counterexample).  The claim asserts that the producer
handle returned by `body_storage_pair` supports two advances, the
first of which merely primes it to wait for a value and the second of
which delivers the value.  In fact the priming advance has already
been performed inside `body_storage_pair` (the returned generator is
in the waiting state); the first advance performed on the returned
handle resolves the future — an advance carrying no value resolves it
to the Python None payload, so the consumer is no longer pending —
and a subsequent advance delivering the intended value X raises
StopIteration instead of resolving the consumer to X. -/
theorem c3_two_advance_protocol_counterexample :
    body_storage_pair.2 = GenState.waiting
    ∧ genAdvance body_storage_pair.2 body_storage_pair.1 none
        = .ok (GenState.delivered, some none)
    ∧ genAdvance GenState.delivered (some none) (some ("X"))
        = .error .stopIteration :=
  ⟨rfl, rfl, rfl⟩

/-- Claim C3 (amended).  `body_storage_pair` itself performs the
priming advance: the pair is returned with the consumer future
unresolved and the producer already waiting for a value.  The single
value-delivering advance by the caller resolves the consumer to
exactly that value; driving the producer again afterwards is a fatal
error (StopIteration), and no advance can ever overwrite an
already-resolved future, so the consumer is resolved at most once. -/
theorem c3_one_shot_delivery_amended :
    ∀ (X : String),
      body_storage_pair = ((none : Fut), GenState.waiting)
      ∧ genAdvance GenState.waiting none (some X)
          = .ok (GenState.delivered, some (some X))
      ∧ (∀ v, genAdvance GenState.delivered (some (some X)) v = .error .stopIteration)
      ∧ (∀ (st : GenState) (f : Fut) (v : Option String) (st' : GenState) (f' : Fut)
            (w : Option String),
          genAdvance st f v = .ok (st', f') → f = some w → f' = some w) := by
  intro X
  refine ⟨rfl, rfl, fun v => rfl, ?_⟩
  intro st f v st' f' w hok hres
  subst hres
  cases st with
  | created =>
    cases v with
    | none => simp [genAdvance] at hok; exact hok.2.symm ▸ rfl
    | some _ => simp [genAdvance] at hok
  | waiting => simp [genAdvance] at hok
  | delivered => simp [genAdvance] at hok

/-- Claim C3 witness: the amended theorem applied at concrete
inputs — the creating call has primed the producer, and the
resolved-at-most-once invariant instantiated at the priming step of a
generator whose future is already resolved. -/
theorem c3_one_shot_delivery_amended_witness :
    body_storage_pair = ((none : Fut), GenState.waiting)
    ∧ (some (some ("a")) : Fut) = some (some ("a")) :=
  ⟨(c3_one_shot_delivery_amended ("a")).1,
   (c3_one_shot_delivery_amended ("a")).2.2.2 GenState.created (some (some ("a"))) none
     GenState.waiting (some (some ("a"))) (some ("a")) rfl rfl⟩

/-- Claim C4.  For every entry with a leaf handler, the match yields
the entry exactly when the mask includes the method and the pattern
matches the whole path (empty residual); equivalently the per-entry
skip decision excludes the entry exactly when the pattern did not
match or the match leaves a non-empty residual.  In particular a leaf
handler registered at /home is skipped for the request path
/home/extra but matches /home with empty residual. -/
theorem c4_leaf_skip_decision :
    (∀ (i mask method : Nat) (pat : Regexp) (path : List Char),
        matchChain [(mask, pat, Handler.leaf i)] method path ≠ [] ↔
          (mask &&& method ≠ 0 ∧ ∃ caps, regexMatch pat path = some (caps, [])))
    ∧ matchChain
        [(HTTPMethod.GET, sinatra_path_to_regex (.str ("/home")), Handler.leaf 7)]
        HTTPMethod.GET ("/home/extra").data = []
    ∧ matchChain
        [(HTTPMethod.GET, sinatra_path_to_regex (.str ("/home")), Handler.leaf 7)]
        HTTPMethod.GET ("/home").data = [(Handler.leaf 7, [], [])] := by
  refine ⟨?_, rfl, rfl⟩
  intro i mask method pat path
  by_cases h : mask &&& method = 0
  · simp [matchChain, List.filterMap, matchEntry, Entry.mask, h]
  · cases hres : regexMatch pat path with
    | none =>
      simp [matchChain, List.filterMap, matchEntry, Entry.mask, Entry.pattern,
        Entry.func, h, hres, should_skip_middleware]
    | some pr =>
      obtain ⟨caps, rest⟩ := pr
      cases rest with
      | nil =>
        simp [matchChain, List.filterMap, matchEntry, Entry.mask, Entry.pattern,
          Entry.func, h, hres, should_skip_middleware]
      | cons c cs =>
        simp [matchChain, List.filterMap, matchEntry, Entry.mask, Entry.pattern,
          Entry.func, h, hres, should_skip_middleware]

/-- Claim C5.  For every error delivered to the error handler exactly
one write is performed on the transport, and the written bytes are
exactly the literal HTTP/1.1 status line with the selected code and
message, the Content-Type header, a Content-Length header equal to
the byte length of the encoded HTML body, a Date header, a blank
line, and the HTML body followed by a newline, all separated by
CRLF. -/
theorem c5_error_wire_format :
    ∀ (date : String) (err : DispatchError),
      (handle_error date err).1 =
        [ ("HTTP/1.1 " ++ toString (errCodeOf err) ++ " " ++ errMsgOf err) ++ "\r\n"
            ++ "Content-Type: text/html; charset=UTF-8" ++ "\r\n"
            ++ ("Content-Length: "
                ++ toString (errBody (errCodeOf err) (errMsgOf err) (errInfoOf err)).utf8ByteSize)
            ++ "\r\n"
            ++ ("Date: " ++ date) ++ "\r\n"
            ++ "" ++ "\r\n"
            ++ errBody (errCodeOf err) (errMsgOf err) (errInfoOf err) ] := by
  intro date err
  cases err with
  | httpError c m => rfl
  | unclassified s => rfl

/-- Claim C6.  Path compilation returns a pre-compiled pattern object
unchanged; any other path is split on slashes and each segment on
which the sinatra parameter pattern hits (a whole segment starting
with a colon followed by a word character) is replaced by a named
capture group, named by everything after the colon and matching one
or more word characters, while every other segment is left unchanged;
compiling /users/:id and matching /users/42 yields the captured
parameter id = 42 with no residual. -/
theorem c6_sinatra_compile :
    (∀ r : Regexp, sinatra_path_to_regex (.regex r) = r)
    ∧ (∀ s : String,
        sinatra_path_to_regex (.str s) = (splitChars '/' s.data).map compileSegment)
    ∧ (∀ (c : Char) (cs : List Char), isWordChar c = true →
        compileSegment (':' :: c :: cs) = .param (c :: cs))
    ∧ (∀ (c : Char) (cs : List Char), isWordChar c = false →
        compileSegment (':' :: c :: cs) = .lit (':' :: c :: cs))
    ∧ (∀ seg : List Char, (∀ (c : Char) (cs : List Char), seg ≠ ':' :: c :: cs) →
        compileSegment seg = .lit seg)
    ∧ regexMatch (sinatra_path_to_regex (.str ("/users/:id"))) ("/users/42").data
        = some ([(("id").data, ("42").data)], []) := by
  refine ⟨fun r => rfl, fun s => rfl, ?_, ?_, ?_, rfl⟩
  · intro c cs h
    simp [compileSegment, h]
  · intro c cs h
    simp [compileSegment, h]
  · intro seg h
    rw [compileSegment.eq_def]
    split
    · next c cs => exact absurd rfl (h c cs)
    · rfl

/-- Claim C6 witness: the compilation characterizations applied at
concrete segments — a parameter segment, a segment with a non-word
character after the colon, and a plain literal segment. -/
theorem c6_sinatra_compile_witness :
    compileSegment (':' :: 'i' :: ['d']) = .param ('i' :: ['d'])
    ∧ compileSegment (':' :: '-' :: []) = .lit (':' :: '-' :: [])
    ∧ compileSegment ('u' :: ['p']) = .lit ('u' :: ['p']) :=
  ⟨c6_sinatra_compile.2.2.1 'i' ['d'] (by decide),
   c6_sinatra_compile.2.2.2.1 '-' [] (by decide),
   c6_sinatra_compile.2.2.2.2.1 ('u' :: ['p'])
     (by intro c cs hx; injection hx with h1 _; exact absurd h1 (by decide))⟩

/-- Claim C7.  Each verb-registration method called with the handler
omitted returns a decorator which, applied to a function, registers
that function under the corresponding method mask and path and
returns the very same function; called with a handler it registers
the handler directly. -/
theorem c7_verb_registration_decorator :
    ∀ (r : Router) (p : PathSpec) (f : Handler),
      (Router.get r p (some f)
          = .router (r ++ [(HTTPMethod.GET, sinatra_path_to_regex p, f)])
        ∧ ∃ d, Router.get r p none = .decorator d
            ∧ d f = (r ++ [(HTTPMethod.GET, sinatra_path_to_regex p, f)], f))
      ∧ (Router.post r p (some f)
          = .router (r ++ [(HTTPMethod.POST, sinatra_path_to_regex p, f)])
        ∧ ∃ d, Router.post r p none = .decorator d
            ∧ d f = (r ++ [(HTTPMethod.POST, sinatra_path_to_regex p, f)], f))
      ∧ (Router.put r p (some f)
          = .router (r ++ [(HTTPMethod.PUT, sinatra_path_to_regex p, f)])
        ∧ ∃ d, Router.put r p none = .decorator d
            ∧ d f = (r ++ [(HTTPMethod.PUT, sinatra_path_to_regex p, f)], f))
      ∧ (Router.delete r p (some f)
          = .router (r ++ [(HTTPMethod.DELETE, sinatra_path_to_regex p, f)])
        ∧ ∃ d, Router.delete r p none = .decorator d
            ∧ d f = (r ++ [(HTTPMethod.DELETE, sinatra_path_to_regex p, f)], f))
      ∧ (Router.all r p (some f)
          = .router (r ++ [(HTTPMethod.ALL, sinatra_path_to_regex p, f)])
        ∧ ∃ d, Router.all r p none = .decorator d
            ∧ d f = (r ++ [(HTTPMethod.ALL, sinatra_path_to_regex p, f)], f)) :=
  fun _ _ _ =>
    ⟨⟨rfl, _, rfl, rfl⟩, ⟨rfl, _, rfl, rfl⟩, ⟨rfl, _, rfl, rfl⟩,
     ⟨rfl, _, rfl, rfl⟩, ⟨rfl, _, rfl, rfl⟩⟩

/-- Claim C8.  The subrouters property yields, in registration order
(it is a sublist of the middleware list), exactly the entries whose
handler is itself a router instance, and no other entries. -/
theorem c8_subrouters_filter :
    ∀ r : Router,
      List.Sublist (Router.subrouters r) r
      ∧ ∀ e : Entry, e ∈ Router.subrouters r ↔ (e ∈ r ∧ e.func.isRouter = true) := by
  intro r
  refine ⟨List.filter_sublist r, ?_⟩
  intro e
  simp [Router.subrouters, List.mem_filter]

/-- Claim C9.  The dispatch convenience surface yields exactly the
sequence the chain's matching operation produces for the request's
method and path, whatever else the request carries. -/
theorem c9_match_routes_dispatch :
    ∀ (r : Router) (req : Request),
      Router.match_routes r req = matchChain r req.method req.path.data :=
  fun _ _ => rfl

/-- Claim C10.  The producer generator returned by
`body_storage_pair` is already primed when the pair is returned — the
creating call performs the initial advance internally, leaving the
consumer future unresolved — and the caller's single first send of a
value resolves the paired consumer to exactly that value, with no
preliminary advance required by the caller. -/
theorem c10_body_storage_pair_primed :
    ∀ (X : String),
      body_storage_pair = ((none : Fut), GenState.waiting)
      ∧ genAdvance body_storage_pair.2 body_storage_pair.1 (some X)
          = .ok (GenState.delivered, some (some X)) :=
  fun _ => ⟨rfl, rfl⟩

end Growler

